import Mathlib

/-!
Shallow embedding of the speaker-balancer core model
(`src/models/speakerwrangler.py`, same logic in `src/models/speakermodel.py`).

Levels and offsets are modelled as rationals (`ℚ`); Python `None` becomes
`Option`.  Mutating methods become state-passing functions on the
`SpeakerWrangler` record; methods that can raise return the raised error
together with the post-state (Python leaves partial mutations in place when an
exception escapes, so the post-state is returned even on failure).  Pure read
methods (`check_for_missing_offsets`, `get_data`) return their value only.
-/

/-- The `Speaker` class: `channel`, last SLM reading `slm_level`
(the spec's `meter_reading`), `offset`, and the `calibrated` flag
(the spec's `is_calibrated`).  `Speaker.__init__` sets
`slm_level = None`, `offset = None`, `calibrated = False`. -/
structure Speaker where
  channel : ℤ
  slm_level : Option ℚ
  offset : Option ℚ
  calibrated : Bool
deriving DecidableEq, Repr

/-- `Speaker(channel)` as constructed by `Speaker.__init__`. -/
def Speaker.init (channel : ℤ) : Speaker :=
  { channel := channel, slm_level := none, offset := none, calibrated := false }

/-- The `SpeakerWrangler` class: `speaker_list` and the optional
reference level `ref_level` (the spec's `reference_level`).
`SpeakerWrangler.__init__` sets `speaker_list = []`, `ref_level = None`. -/
structure SpeakerWrangler where
  speaker_list : List Speaker
  ref_level : Option ℚ
deriving DecidableEq, Repr

/-- A fresh wrangler, as built by `SpeakerWrangler.__init__`. -/
def SpeakerWrangler.init : SpeakerWrangler :=
  { speaker_list := [], ref_level := none }

/-- `add_speaker(channel)`: create a new `Speaker` and append it. -/
def SpeakerWrangler.add_speaker (sw : SpeakerWrangler) (channel : ℤ) :
    SpeakerWrangler :=
  { sw with speaker_list := sw.speaker_list ++ [Speaker.init channel] }

/-- Round half to even, the rounding mode of `np.round`. -/
def roundHalfEven (q : ℚ) : ℤ :=
  let f : ℤ := Rat.floor q
  let r : ℚ := q - (f : ℚ)
  if r < 1 / 2 then f
  else if 1 / 2 < r then f + 1
  else if f % 2 = 0 then f else f + 1

/-- `np.round(q, 1)`: round to one decimal place, halves to even. -/
def np_round1 (q : ℚ) : ℚ :=
  ((roundHalfEven (10 * q) : ℤ) : ℚ) / 10

/-- Python list indexing: an index `c` with `0 ≤ c < n` denotes position
`c`; a negative `c` with `-n ≤ c` denotes position `n + c`; anything else
raises `IndexError`. -/
def pythonIndex (n : ℕ) (c : ℤ) : Option ℕ :=
  if 0 ≤ c ∧ c < (n : ℤ) then some c.toNat
  else if -(n : ℤ) ≤ c ∧ c < 0 then some (n - (-c).toNat)
  else none

/-- Errors `calc_offset` can raise: `typeError` when `ref_level` is `None`
(the missing-reference error, from `None - slm_level`), `indexError` when
`speaker_list[channel]` is out of range. -/
inductive CalcError where
  | typeError
  | indexError
deriving DecidableEq, Repr

/-- `calc_offset(channel, slm_level)`:
if `channel == 0` set `ref_level = slm_level`; compute
`offset = np.round(ref_level - slm_level, 1)`, raising `TypeError` when
`ref_level` is `None`; then set the target speaker's `slm_level`, `offset`
and `calibrated` fields.  Returns the raised error (if any) together with
the post-state. -/
def SpeakerWrangler.calc_offset (sw : SpeakerWrangler) (channel : ℤ)
    (slm_level : ℚ) : Option CalcError × SpeakerWrangler :=
  let sw1 := if channel = 0 then { sw with ref_level := some slm_level } else sw
  match sw1.ref_level with
  | none => (some CalcError.typeError, sw1)
  | some r =>
    let offset := np_round1 (r - slm_level)
    match pythonIndex sw1.speaker_list.length channel with
    | none => (some CalcError.indexError, sw1)
    | some i =>
      match sw1.speaker_list[i]? with
      | none => (some CalcError.indexError, sw1)
      | some sp =>
        (none,
         { sw1 with
           speaker_list := sw1.speaker_list.set i
             { sp with slm_level := some slm_level,
                       offset := some offset, calibrated := true } })

/-- `check_for_missing_offsets()`: loop over `speaker_list`, collecting the
channels of speakers whose `calibrated` flag is `False`. -/
def SpeakerWrangler.check_for_missing_offsets (sw : SpeakerWrangler) :
    List ℤ :=
  sw.speaker_list.foldl
    (fun missing_offsets speaker =>
      if !speaker.calibrated then missing_offsets ++ [speaker.channel]
      else missing_offsets)
    []

/-- One step of Python `dict` construction: overwrite an existing key in
place, otherwise append the new key at the end. -/
def dictInsert (d : List (ℤ × Option ℚ)) (k : ℤ) (v : Option ℚ) :
    List (ℤ × Option ℚ) :=
  if d.any (fun p => p.1 = k) then
    d.map (fun p => if p.1 = k then (k, v) else p)
  else d ++ [(k, v)]

/-- `get_data()`: `dict(zip(channels, offsets))` over `speaker_list`. -/
def SpeakerWrangler.get_data (sw : SpeakerWrangler) :
    List (ℤ × Option ℚ) :=
  (sw.speaker_list.map (fun speaker => (speaker.channel, speaker.offset))).foldl
    (fun d p => dictInsert d p.1 p.2) []

/-- Registry states reachable from a fresh `SpeakerWrangler` by any
sequence of `add_speaker` and `calc_offset` calls (succeeding or failing);
`check_for_missing_offsets` and `get_data` are pure reads and do not
change the state. -/
inductive Reachable : SpeakerWrangler → Prop where
  | start : Reachable SpeakerWrangler.init
  | addSpeaker (sw : SpeakerWrangler) (c : ℤ) :
      Reachable sw → Reachable (sw.add_speaker c)
  | calcOffset (sw : SpeakerWrangler) (c : ℤ) (x : ℚ) :
      Reachable sw → Reachable (sw.calc_offset c x).2

/-- The registry obtained from a fresh wrangler by `add_speaker(i)` for
`i = 0 .. n-1`, as the controller does at startup. -/
def mkRegistry (n : ℕ) : SpeakerWrangler :=
  (List.range n).foldl (fun sw (i : ℕ) => sw.add_speaker i)
    SpeakerWrangler.init

/-- The field update `calc_offset` performs on its target speaker. -/
def Speaker.calibrate (sp : Speaker) (x o : ℚ) : Speaker :=
  { sp with slm_level := some x, offset := some o, calibrated := true }

/-! ### Helper lemmas -/

lemma pythonIndex_natCast (n c : ℕ) (h : c < n) :
    pythonIndex n (c : ℤ) = some c := by
  simp [pythonIndex, h, Int.toNat_natCast]

lemma mkRegistry_eq (n : ℕ) :
    mkRegistry n =
      { speaker_list := (List.range n).map (fun (i : ℕ) => Speaker.init i),
        ref_level := none } := by
  induction n with
  | zero => rfl
  | succ n ih =>
    unfold mkRegistry at ih ⊢
    rw [List.range_succ, List.foldl_append, ih]
    simp [SpeakerWrangler.add_speaker, List.range_succ]

lemma calc_offset_valid (sw : SpeakerWrangler) (c : ℕ) (x r : ℚ)
    (hc : c < sw.speaker_list.length)
    (hr : (if (c : ℤ) = 0 then some x else sw.ref_level) = some r) :
    sw.calc_offset c x =
      (none,
       { speaker_list := sw.speaker_list.set c
           ((sw.speaker_list[c]).calibrate x (np_round1 (r - x))),
         ref_level := if (c : ℤ) = 0 then some x else sw.ref_level }) := by
  unfold SpeakerWrangler.calc_offset Speaker.calibrate
  by_cases h0 : (c : ℤ) = 0
  · rw [if_pos h0] at hr ⊢
    rw [if_pos h0]
    obtain rfl : x = r := by simpa using hr
    simp only [pythonIndex_natCast _ _ hc, List.getElem?_eq_getElem hc]
  · rw [if_neg h0] at hr
    simp only [if_neg h0, hr, pythonIndex_natCast _ _ hc,
      List.getElem?_eq_getElem hc]

lemma calc_offset_list_shape (sw : SpeakerWrangler) (c : ℤ) (x : ℚ) :
    (sw.calc_offset c x).2.speaker_list = sw.speaker_list ∨
    ∃ i sp o, sp ∈ sw.speaker_list ∧
      (sw.calc_offset c x).2.speaker_list =
        sw.speaker_list.set i (sp.calibrate x o) := by
  unfold SpeakerWrangler.calc_offset
  by_cases h0 : c = 0
  · subst h0
    simp only [if_pos rfl]
    cases hpi : pythonIndex sw.speaker_list.length 0 with
    | none => simp [hpi]
    | some i =>
      cases hsp : sw.speaker_list[i]? with
      | none => simp [hpi, hsp]
      | some sp =>
        right
        exact ⟨i, sp, np_round1 (x - x), List.getElem?_mem hsp,
          by simp [hpi, hsp, Speaker.calibrate]⟩
  · simp only [if_neg h0]
    cases hre : sw.ref_level with
    | none => simp [hre]
    | some r =>
      cases hpi : pythonIndex sw.speaker_list.length c with
      | none => simp [hre, hpi]
      | some i =>
        cases hsp : sw.speaker_list[i]? with
        | none => simp [hre, hpi, hsp]
        | some sp =>
          right
          exact ⟨i, sp, np_round1 (r - x), List.getElem?_mem hsp,
            by simp [hre, hpi, hsp, Speaker.calibrate]⟩

lemma check_foldl (l : List Speaker) (acc : List ℤ) :
    l.foldl
      (fun missing_offsets speaker =>
        if !speaker.calibrated then missing_offsets ++ [speaker.channel]
        else missing_offsets) acc =
      acc ++ (l.filter (fun speaker => !speaker.calibrated)).map
        Speaker.channel := by
  induction l generalizing acc with
  | nil => simp
  | cons sp rest ih =>
    rw [List.foldl_cons, List.filter_cons]
    cases h : sp.calibrated
    · rw [if_pos (by simp [h]), if_pos (by simp [h]), ih]
      simp
    · rw [if_neg (by simp [h]), if_neg (by simp [h]), ih]

lemma foldl_dictInsert (l : List (ℤ × Option ℚ)) (d : List (ℤ × Option ℚ))
    (hd : ∀ p ∈ l, ∀ q ∈ d, p.1 ≠ q.1)
    (hl : (l.map Prod.fst).Nodup) :
    l.foldl (fun d p => dictInsert d p.1 p.2) d = d ++ l := by
  induction l generalizing d with
  | nil => simp
  | cons p rest ih =>
    rw [List.map_cons] at hl
    have hnot : d.any (fun q => q.1 = p.1) = false := by
      simp only [List.any_eq_false, decide_eq_true_eq]
      intro q hq he
      exact hd p (List.mem_cons_self _ _) q hq he.symm
    have hp1 : (p.1 : ℤ) ∉ rest.map Prod.fst :=
      (List.nodup_cons.mp hl).1
    have hd2 : ∀ p2 ∈ rest, ∀ q ∈ d ++ [p], p2.1 ≠ q.1 := by
      intro p2 hp2 q hq
      rcases List.mem_append.mp hq with h1 | h1
      · exact hd p2 (List.mem_cons_of_mem _ hp2) q h1
      · rcases List.mem_singleton.mp h1 with rfl
        intro he
        exact hp1 (he ▸ List.mem_map_of_mem Prod.fst hp2)
    have hl2 : (rest.map Prod.fst).Nodup := (List.nodup_cons.mp hl).2
    have h1 : dictInsert d p.1 p.2 = d ++ [p] := by
      simp [dictInsert, hnot]
    rw [List.foldl_cons]
    show rest.foldl (fun d p => dictInsert d p.1 p.2) (dictInsert d p.1 p.2) =
      d ++ p :: rest
    rw [h1, ih (d ++ [p]) hd2 hl2]
    simp

lemma np_round1_zero : np_round1 0 = 0 := by with_unfolding_all decide

/-! ### Claim theorems -/

/-- C8: for all `n ≥ 0`, a fresh registry followed by `add_speaker(i)` for
`i = 0 .. n-1` yields exactly `n` speakers, the one at position `i` having
`channel = i`, `slm_level` (meter reading) absent, `offset` absent and
`calibrated = false`, while `ref_level` stays absent. -/
theorem mkRegistry_fresh (n : ℕ) :
    (mkRegistry n).speaker_list.length = n ∧
    (mkRegistry n).ref_level = none ∧
    ∀ i : ℕ, i < n →
      (mkRegistry n).speaker_list[i]? = some (Speaker.init i) := by
  rw [mkRegistry_eq]
  refine ⟨by simp, rfl, ?_⟩
  intro i hi
  simp [List.getElem?_map, List.getElem?_range hi]

/-- Witness for `mkRegistry_fresh` at `n = 3`, `i = 1`. -/
theorem mkRegistry_fresh_witness :
    1 < 3 ∧ (mkRegistry 3).speaker_list[1]? = some (Speaker.init 1) :=
  ⟨by decide, (mkRegistry_fresh 3).2.2 1 (by decide)⟩

/-- C9 (recorded as a code bug): passing a negative channel such as `-1` to
`calc_offset` does not fail loudly; Python list indexing wraps around, so on
a 3-speaker registry with reference 70 the call `calc_offset(-1, 75)`
silently succeeds and mutates the speaker at position 2. -/
theorem calc_offset_negative_channel_silent :
    (((mkRegistry 3).calc_offset 0 70).2.calc_offset (-1) 75).1 = none ∧
    (((mkRegistry 3).calc_offset 0 70).2.calc_offset (-1)
        75).2.speaker_list[2]? =
      some { channel := 2, slm_level := some 75, offset := some (-5),
             calibrated := true } := by
  with_unfolding_all decide

/-- C10: when `calc_offset` raises the missing-reference error (channel
`c ≠ 0` indexing an existing speaker while `ref_level` is absent), the
registry state after the failed call is exactly the state before it. -/
theorem calc_offset_missing_ref_atomic (sw : SpeakerWrangler) (c : ℤ)
    (x : ℚ) (i : ℕ) (hc : c ≠ 0)
    (_hpi : pythonIndex sw.speaker_list.length c = some i)
    (href : sw.ref_level = none) :
    (sw.calc_offset c x).1 = some CalcError.typeError ∧
    (sw.calc_offset c x).2 = sw := by
  constructor <;> simp [SpeakerWrangler.calc_offset, hc, href]

/-- Witness for `calc_offset_missing_ref_atomic` on a fresh 3-channel
registry with channel 1 and level 75. -/
theorem calc_offset_missing_ref_atomic_witness :
    ((mkRegistry 3).calc_offset 1 75).1 = some CalcError.typeError ∧
    ((mkRegistry 3).calc_offset 1 75).2 = mkRegistry 3 :=
  calc_offset_missing_ref_atomic (mkRegistry 3) 1 75 1 (by decide)
    (by decide) (by decide)

lemma calc_offset_ref_level (sw : SpeakerWrangler) (c : ℤ) (x : ℚ) :
    (sw.calc_offset c x).2.ref_level =
      if c = 0 then some x else sw.ref_level := by
  unfold SpeakerWrangler.calc_offset
  by_cases h0 : c = 0
  · subst h0
    simp only [if_pos rfl]
    cases hpi : pythonIndex sw.speaker_list.length 0 with
    | none => simp [hpi]
    | some i =>
      cases hsp : sw.speaker_list[i]? with
      | none => simp [hpi, hsp]
      | some sp => simp [hpi, hsp]
  · simp only [if_neg h0]
    cases hre : sw.ref_level with
    | none => simp [hre]
    | some r =>
      cases hpi : pythonIndex sw.speaker_list.length c with
      | none => simp [hre, hpi]
      | some i =>
        cases hsp : sw.speaker_list[i]? with
        | none => simp [hre, hpi, hsp]
        | some sp => simp [hre, hpi, hsp]

/-- C2: with `ref_level` absent, `calc_offset` on any existing channel
`c ≠ 0` fails with the missing-reference error (`TypeError`), signalled
distinctly from a normal result; and once any reference is established,
no call — on any channel — fails with that error: a state with a
reference never returns the missing-reference error, and neither
`calc_offset` nor `add_speaker` ever removes an established reference. -/
theorem calc_offset_missing_reference_error :
    (∀ (sw : SpeakerWrangler) (c : ℤ) (x : ℚ) (i : ℕ),
      c ≠ 0 → pythonIndex sw.speaker_list.length c = some i →
      sw.ref_level = none →
      (sw.calc_offset c x).1 = some CalcError.typeError) ∧
    (∀ (sw : SpeakerWrangler) (c : ℤ) (x : ℚ) (r : ℚ),
      sw.ref_level = some r →
      (sw.calc_offset c x).1 ≠ some CalcError.typeError) ∧
    (∀ (sw : SpeakerWrangler) (c : ℤ) (x : ℚ) (r : ℚ),
      sw.ref_level = some r →
      (sw.calc_offset c x).2.ref_level = some r ∨
      (sw.calc_offset c x).2.ref_level = some x) ∧
    (∀ (sw : SpeakerWrangler) (c : ℤ) (r : ℚ),
      sw.ref_level = some r → (sw.add_speaker c).ref_level = some r) := by
  refine ⟨?_, ?_, ?_, fun sw c r href => href⟩
  · intro sw c x i hc hpi href
    simp [SpeakerWrangler.calc_offset, hc, href]
  · intro sw c x r href
    unfold SpeakerWrangler.calc_offset
    by_cases h0 : c = 0
    · simp only [h0, if_pos]
      cases hpi : pythonIndex sw.speaker_list.length 0 with
      | none => simp [hpi]
      | some i =>
        cases hsp : sw.speaker_list[i]? with
        | none => simp [hpi, hsp]
        | some sp => simp [hpi, hsp]
    · simp only [if_neg h0, href]
      cases hpi : pythonIndex sw.speaker_list.length c with
      | none => simp [hpi]
      | some i =>
        cases hsp : sw.speaker_list[i]? with
        | none => simp [hpi, hsp]
        | some sp => simp [hpi, hsp]
  · intro sw c x r href
    rw [calc_offset_ref_level]
    by_cases h0 : c = 0
    · right
      rw [if_pos h0]
    · left
      rw [if_neg h0, href]

/-- Witness for `calc_offset_missing_reference_error`: channel 1 before any
reference fails with the missing-reference error; after calibrating channel
0 at 70, channel 2 does not fail with it. -/
theorem calc_offset_missing_reference_error_witness :
    ((mkRegistry 3).calc_offset 1 75).1 = some CalcError.typeError ∧
    (((mkRegistry 3).calc_offset 0 70).2.calc_offset 2 68).1 ≠
      some CalcError.typeError :=
  ⟨calc_offset_missing_reference_error.1 (mkRegistry 3) 1 75 1 (by decide)
      (by decide) (by decide),
   calc_offset_missing_reference_error.2.1 ((mkRegistry 3).calc_offset 0
      70).2 2 68 70 (by decide)⟩

/-- C3: in every registry state reachable from a fresh registry by
`add_speaker` and `calc_offset` calls (succeeding or failing; the reads
`check_for_missing_offsets` and `get_data` leave the state untouched),
every speaker has `calibrated = true` iff its `offset` is present. -/
theorem reachable_calibrated_iff_offset (sw : SpeakerWrangler)
    (h : Reachable sw) :
    ∀ sp ∈ sw.speaker_list,
      sp.calibrated = true ↔ sp.offset.isSome = true := by
  induction h with
  | start =>
    intro sp hsp
    simp [SpeakerWrangler.init] at hsp
  | addSpeaker sw c hr ih =>
    intro sp hsp
    simp only [SpeakerWrangler.add_speaker] at hsp
    rcases List.mem_append.mp hsp with h1 | h1
    · exact ih sp h1
    · rcases List.mem_singleton.mp h1 with rfl
      simp [Speaker.init]
  | calcOffset sw c x hr ih =>
    intro sp hsp
    rcases calc_offset_list_shape sw c x with h1 | ⟨i, sp0, o, hmem, h1⟩
    · rw [h1] at hsp
      exact ih sp hsp
    · rw [h1] at hsp
      rcases List.mem_or_eq_of_mem_set hsp with h2 | h2
      · exact ih sp h2
      · subst h2
        simp [Speaker.calibrate]

/-- Witness for `reachable_calibrated_iff_offset` on the reachable
one-speaker registry, at its only speaker. -/
theorem reachable_calibrated_iff_offset_witness :
    Reachable (SpeakerWrangler.init.add_speaker 0) ∧
    ((Speaker.init 0).calibrated = true ↔
      (Speaker.init 0).offset.isSome = true) :=
  ⟨Reachable.addSpeaker _ 0 Reachable.start,
   reachable_calibrated_iff_offset (SpeakerWrangler.init.add_speaker 0)
     (Reachable.addSpeaker _ 0 Reachable.start) (Speaker.init 0)
     (by decide)⟩

/-- C1: for a registry with a speaker at position `channel`, a call
`calc_offset(channel, x)` first sets `ref_level = x` when `channel = 0`;
then with `r` the current reference it succeeds and stores
`slm_level = x`, `offset = np.round(r - x, 1)` and `calibrated = true` on
that speaker.  In particular with reference 70, `calc_offset(1, 75)`
yields offset `-5.0` and `calc_offset(2, 68)` yields `2.0`. -/
theorem calc_offset_success_updates (sw : SpeakerWrangler) (c : ℕ)
    (x r : ℚ) (hc : c < sw.speaker_list.length)
    (hr : (if (c : ℤ) = 0 then some x else sw.ref_level) = some r) :
    (sw.calc_offset c x).1 = none ∧
    ((c : ℤ) = 0 → (sw.calc_offset c x).2.ref_level = some x) ∧
    (sw.calc_offset c x).2.speaker_list[c]? =
      some ((sw.speaker_list[c]).calibrate x (np_round1 (r - x))) ∧
    ((((mkRegistry 3).calc_offset 0 70).2.calc_offset 1
        75).2.speaker_list[1]?).map Speaker.offset = some (some (-5)) ∧
    ((((mkRegistry 3).calc_offset 0 70).2.calc_offset 2
        68).2.speaker_list[2]?).map Speaker.offset = some (some 2) := by
  rw [calc_offset_valid sw c x r hc hr]
  refine ⟨rfl, fun h0 => by rw [if_pos h0], ?_,
    by with_unfolding_all decide, by with_unfolding_all decide⟩
  exact List.getElem?_set_self hc

/-- Witness for `calc_offset_success_updates`: channel 1 at level 75 after
the reference was set to 70. -/
theorem calc_offset_success_updates_witness :
    (((mkRegistry 3).calc_offset 0 70).2.calc_offset ((1 : ℕ) : ℤ)
      75).1 = none :=
  (calc_offset_success_updates ((mkRegistry 3).calc_offset 0 70).2 1 75 70
    (by with_unfolding_all decide) (by with_unfolding_all decide)).1

/-- C4: a successful `calc_offset(c, x)` changes nothing but the speaker
at position `c` (plus `ref_level` when `c = 0`): the list keeps its
length, every other position is unchanged, and for `c ≠ 0` the reference
is untouched.  In particular recalibrating channel 0 at 72 after channels
1 and 2 were calibrated against 70 leaves their offsets `-5.0` and `2.0`
unchanged. -/
theorem calc_offset_frame (sw : SpeakerWrangler) (c : ℕ) (x : ℚ)
    (hc : c < sw.speaker_list.length)
    (hsucc : (sw.calc_offset c x).1 = none) :
    (sw.calc_offset c x).2.speaker_list.length =
      sw.speaker_list.length ∧
    (∀ j : ℕ, j ≠ c →
      (sw.calc_offset c x).2.speaker_list[j]? = sw.speaker_list[j]?) ∧
    ((c : ℤ) ≠ 0 → (sw.calc_offset c x).2.ref_level = sw.ref_level) ∧
    ((((((mkRegistry 3).calc_offset 0 70).2.calc_offset 1
        75).2.calc_offset 2 68).2.calc_offset 0
        72).2.speaker_list[1]?).map Speaker.offset = some (some (-5)) ∧
    ((((((mkRegistry 3).calc_offset 0 70).2.calc_offset 1
        75).2.calc_offset 2 68).2.calc_offset 0
        72).2.speaker_list[2]?).map Speaker.offset = some (some 2) := by
  obtain ⟨r, hr⟩ :
      ∃ r, (if (c : ℤ) = 0 then some x else sw.ref_level) = some r := by
    by_cases h0 : (c : ℤ) = 0
    · exact ⟨x, by rw [if_pos h0]⟩
    · cases href : sw.ref_level with
      | none =>
        have hbad : (sw.calc_offset c x).1 = some CalcError.typeError := by
          simp [SpeakerWrangler.calc_offset, h0, href]
        rw [hbad] at hsucc
        simp at hsucc
      | some r0 => exact ⟨r0, by rw [if_neg h0]⟩
  rw [calc_offset_valid sw c x r hc hr]
  refine ⟨by simp, ?_, ?_, by with_unfolding_all decide,
    by with_unfolding_all decide⟩
  · intro j hj
    exact List.getElem?_set_ne (Ne.symm hj)
  · intro h0
    rw [if_neg h0]

/-- Witness for `calc_offset_frame`: calibrating channel 0 of a 2-channel
registry leaves channel 1 untouched. -/
theorem calc_offset_frame_witness :
    ((mkRegistry 2).calc_offset ((0 : ℕ) : ℤ)
      70).2.speaker_list[1]? = (mkRegistry 2).speaker_list[1]? :=
  (calc_offset_frame (mkRegistry 2) 0 70 (by decide)
    (by with_unfolding_all decide)).2.1 1 (by decide)

/-- C5: with channels unique (the data-model invariant), `get_data()`
returns the channel-to-offset mapping covering every speaker in
insertion (= channel) order; being a pure function of the state it
mutates nothing.  On an uncalibrated 3-channel registry it returns
`{0: none, 1: none, 2: none}`; after calibrating channels 0 (at 70) and
2 (at 68) it returns `{0: 0.0, 1: none, 2: 2.0}`. -/
theorem get_data_spec (sw : SpeakerWrangler)
    (hnodup :
      (sw.speaker_list.map (fun speaker => speaker.channel)).Nodup) :
    sw.get_data =
      sw.speaker_list.map
        (fun speaker => (speaker.channel, speaker.offset)) ∧
    (mkRegistry 3).get_data = [(0, none), (1, none), (2, none)] ∧
    (((mkRegistry 3).calc_offset 0 70).2.calc_offset 2 68).2.get_data =
      [(0, some 0), (1, none), (2, some 2)] := by
  refine ⟨?_, by with_unfolding_all decide, by with_unfolding_all decide⟩
  unfold SpeakerWrangler.get_data
  have hkeys : ((sw.speaker_list.map
      (fun speaker => (speaker.channel, speaker.offset))).map
      Prod.fst).Nodup := by
    rw [List.map_map]
    exact hnodup
  rw [foldl_dictInsert _ [] (by simp) hkeys]
  simp

/-- Witness for `get_data_spec` on the fresh 3-channel registry. -/
theorem get_data_spec_witness :
    (mkRegistry 3).get_data =
      (mkRegistry 3).speaker_list.map
        (fun speaker => (speaker.channel, speaker.offset)) :=
  (get_data_spec (mkRegistry 3) (by decide)).1

/-- C6: `check_for_missing_offsets()` returns, in speaker-list order, the
channels of exactly the speakers with `calibrated = false`; being a pure
function of the state it mutates nothing.  After calibrating channels 0
and 2 only of a 3-channel registry it returns `[1]`. -/
theorem check_for_missing_offsets_spec (sw : SpeakerWrangler) :
    sw.check_for_missing_offsets =
      (sw.speaker_list.filter
        (fun speaker => !speaker.calibrated)).map Speaker.channel ∧
    (((mkRegistry 3).calc_offset 0 70).2.calc_offset
        2 68).2.check_for_missing_offsets = [1] := by
  refine ⟨?_, by with_unfolding_all decide⟩
  unfold SpeakerWrangler.check_for_missing_offsets
  rw [check_foldl]
  simp

/-- C7: on a registry where channel 0 exists, `calc_offset(0, x)` is
idempotent: a second identical call leaves the state exactly as after the
first; each call re-establishes `ref_level = x`, channel 0's offset is
`0.0`, and no other channel is altered by either call. -/
theorem calc_offset_reference_idempotent (sw : SpeakerWrangler) (x : ℚ)
    (h : 0 < sw.speaker_list.length) :
    ((sw.calc_offset 0 x).2.calc_offset 0 x).2 = (sw.calc_offset 0 x).2 ∧
    (sw.calc_offset 0 x).2.ref_level = some x ∧
    ((sw.calc_offset 0 x).2.speaker_list[0]?).map Speaker.offset =
      some (some 0) ∧
    ∀ j : ℕ, j ≠ 0 →
      (sw.calc_offset 0 x).2.speaker_list[j]? = sw.speaker_list[j]? ∧
      ((sw.calc_offset 0 x).2.calc_offset 0 x).2.speaker_list[j]? =
        sw.speaker_list[j]? := by
  have h1 := calc_offset_valid sw 0 x x h (by simp)
  norm_num [np_round1_zero] at h1
  rw [h1]
  have hlen : 0 < (sw.speaker_list.set 0
      ((sw.speaker_list[0]).calibrate x 0)).length := by
    simpa using h
  have h2 := calc_offset_valid
    { speaker_list := sw.speaker_list.set 0
        ((sw.speaker_list[0]).calibrate x 0),
      ref_level := some x } 0 x x (by simpa using h) (by simp)
  norm_num [np_round1_zero] at h2
  rw [h2]
  refine ⟨?_, rfl, ?_, ?_⟩
  · simp [Speaker.calibrate]
  · rw [List.getElem?_set_self h]
    simp [Speaker.calibrate]
  · intro j hj
    constructor
    · exact List.getElem?_set_ne (Ne.symm hj)
    · rw [List.getElem?_set_ne (Ne.symm hj)]

/-- Witness for `calc_offset_reference_idempotent` on a 1-channel
registry at level 70. -/
theorem calc_offset_reference_idempotent_witness :
    ((mkRegistry 1).calc_offset 0 70).2.ref_level = some 70 :=
  (calc_offset_reference_idempotent (mkRegistry 1) 70 (by decide)).2.1
